import Mathlib

/-!
Verification of the resumable GraphQL pub/sub demo (publisher, intermediary
proxy, subscriber client).  The definitions below are shallow embeddings of the
JavaScript sources: the message log and Mutation.sendMessage of the servers,
the resumable Subscription.onMessage.subscribe of server-with-resume.js, the
Pubsub.subscribe of the unstable server, the backup buffer and onPong and
resendMessages hooks of the proxy, and the final single-subscription
GraphQLClient (connect handshake, subscribe, unsubscribe, disconnect,
attemptReconnect).  Timestamps are modelled as naturals (milliseconds), message
ids as strings (the servers draw them from randomUUID, so the id supply is an
explicit input here), and the asynchronous live feed of a subscription as the
list of messages the MESSAGE_SENT topic delivers after the subscription is
installed.
-/

namespace ChatDemo

/-- A chat message as built by Mutation.sendMessage in both servers:
an object with the fresh UUID, the text and user arguments, and the clock
reading at creation time. -/
structure Message where
  id : String
  text : String
  user : String
  atTime : Nat
deriving DecidableEq, Repr

/-- One publish request, together with the environment inputs the resolver
consumes: the value randomUUID() returns and the current clock reading. -/
structure PublishReq where
  freshId : String
  text : String
  user : String
  now : Nat
deriving DecidableEq, Repr

/-- Mutation.sendMessage: builds the message, pushes it onto storage.messages
and returns it (the publish fan-out is modelled separately by the live feed). -/
def sendMessageResolver (log : List Message) (r : PublishReq) :
    List Message × Message :=
  let m : Message := ⟨r.freshId, r.text, r.user, r.now⟩
  (log ++ [m], m)

/-- Folds a whole sequence of publish requests over the message log. -/
def publishAll (log : List Message) : List PublishReq → List Message
  | [] => log
  | r :: rs => publishAll (sendMessageResolver log r).1 rs

/-- Array.prototype.findIndex, with the not-found result -1 modelled as none. -/
def findIdxOpt {α : Type} (p : α → Bool) : List α → Option Nat
  | [] => none
  | a :: rest => if p a then some 0 else (findIdxOpt p rest).map (fun n => n + 1)

/-- storage.messages.findIndex on msg.id, as an optional index. -/
def findMessageIdx (log : List Message) (cursor : String) : Option Nat :=
  findIdxOpt (fun m => m.id == cursor) log

/-- The live half of the resumable generator in server-with-resume.js: live
messages are swallowed until the id of the last backfilled message shows up in
the live feed, and everything after that first occurrence is yielded. -/
def liveAfterStitch (lastId : String) : List Message → List Message
  | [] => []
  | m :: rest => if m.id == lastId then rest else liveAfterStitch lastId rest

/-- Subscription.onMessage.subscribe in server-with-resume.js.  Without a
cursor it returns the plain live subscription.  With a cursor that is found at
startIndex it yields storage.messages.slice(startIndex) and then the gated
live feed; with a cursor that is not found the resolver falls through and
returns undefined, modelled as none (no stream at all). -/
def resumeSubscribe (log : List Message) (cursor : Option String)
    (live : List Message) : Option (List Message) :=
  match cursor with
  | none => some live
  | some c =>
    match findMessageIdx log c with
    | none => none
    | some i =>
      let messagesToSend := log.drop i
      some (messagesToSend ++
        (if messagesToSend.length = 0 then live
         else
           match messagesToSend.getLast? with
           | none => live
           | some last => liveAfterStitch last.id live))

/-- Pubsub.subscribe in the unstable server (server-unstable.js).  The live
listener is installed unconditionally before the cursor is inspected; with a
cursor found at startIndex the messages of storage.messages.slice(startIndex+1)
are pushed onto the queue first, and with no cursor or an unknown cursor
nothing is backfilled, so the queue carries exactly the live feed. -/
def pubsubSubscribeQueue (log : List Message) (cursor : Option String)
    (live : List Message) : List Message :=
  match cursor with
  | none => live
  | some c =>
    match findMessageIdx log c with
    | none => live
    | some i => log.drop (i + 1) ++ live

/-- The resume behaviour of server-with-resume.js phrased independently of the
index bookkeeping: the backfill is the suffix of the log that starts at the first
message whose id equals the cursor (that message included), and the live feed
is yielded only strictly after the first live reappearance of the id of the
last backfilled message. -/
def specResumeFound (log : List Message) (c : String) (live : List Message) :
    List Message :=
  let bf := log.dropWhile (fun m => !(m.id == c))
  bf ++
    (match bf.getLast? with
     | none => live
     | some last => (live.dropWhile (fun m => !(m.id == last.id))).drop 1)

/-- One entry of the backup buffer in the proxy: the raw frame text together
with the Date.now() reading taken when the frame was enqueued. -/
structure BackupEntry where
  message : String
  timestamp : Nat
deriving DecidableEq, Repr

/-- The module-level mutable state of the proxy that the websocket hooks touch:
the backup list and the lastPong checkpoint. -/
structure ProxyState where
  backup : List BackupEntry
  lastPong : Nat
deriving DecidableEq, Repr

/-- wsHooks.onPong in the proxy: lastPong is advanced to Date.now() and the
backup is filtered down to the entries whose timestamp is strictly greater
than the new lastPong. -/
def onPong (s : ProxyState) (now : Nat) : ProxyState :=
  { lastPong := now,
    backup := s.backup.filter (fun m => decide (now < m.timestamp)) }

/-- The pacing delay between two resent frames (the wait(250) in the resend
loop of the proxy). -/
def RESEND_WAIT : Nat := 250

/-- The selection at the top of resendMessages in the proxy: the backup entries
whose timestamp is strictly after lastPong and at most now. -/
def messagesToResend (backup : List BackupEntry) (lastPong now : Nat) :
    List BackupEntry :=
  backup.filter (fun m => decide (lastPong < m.timestamp) && decide (m.timestamp ≤ now))

/-- An observable action of the resend loop: sending one raw frame to the new
upstream socket, or sleeping for a pacing delay. -/
inductive ProxySend where
  | sendFrame (msg : String)
  | waitMs (ms : Nat)
deriving DecidableEq, Repr

/-- The resend loop of resendMessages: every selected frame is sent and then
the loop waits for the fixed pacing delay before the next one. -/
def resendActions (backup : List BackupEntry) (lastPong now : Nat) :
    List ProxySend :=
  (messagesToResend backup lastPong now).foldr
    (fun m acc => ProxySend.sendFrame m.message :: ProxySend.waitMs RESEND_WAIT :: acc) []

/-- Connection and retry constants of the final client (client.js). -/
def CONNECTION_TIMEOUT : Nat := 5000

/-- Heartbeat period of the final client. -/
def HEARTBEAT_INTERVAL : Nat := 30000

/-- Maximum number of reconnection attempts of the final client. -/
def MAX_RECONNECT_ATTEMPTS : Nat := 5

/-- Base reconnection delay of the final client. -/
def INITIAL_RECONNECT_DELAY : Nat := 2000

/-- Cap on the reconnection delay of the final client. -/
def MAX_RECONNECT_DELAY : Nat := 30000

/-- A frame the client writes to its websocket. -/
inductive Frame where
  | connInit
  | start (subId : String) (resumeId : Option String)
  | stopSub (subId : String)
deriving DecidableEq, Repr

/-- The state of the final single-subscription GraphQLClient (client.js).
Handlers are identified by an abstract token; wsOpen models this.ws being
non-null; sentFrames records every frame written to the socket, and
handlerCalls records every invocation of the registered message handler. -/
structure Client where
  clientId : String
  connected : Bool
  subscriptionId : Option String
  messageHandler : Option Nat
  lastMessageId : Option String
  heartbeatOn : Bool
  reconnectAttempts : Nat
  reconnectDelay : Nat
  shouldReconnect : Bool
  wsOpen : Bool
  sentFrames : List Frame
  handlerCalls : List (Nat × Message)
deriving DecidableEq, Repr

/-- The constructor of the final GraphQLClient.  Note that it assigns no
subscriptions field: the class only keeps the single subscriptionId and
messageHandler. -/
def newClient (clientId : String) : Client :=
  { clientId := clientId
    connected := false
    subscriptionId := none
    messageHandler := none
    lastMessageId := none
    heartbeatOn := false
    reconnectAttempts := 0
    reconnectDelay := INITIAL_RECONNECT_DELAY
    shouldReconnect := true
    wsOpen := false
    sentFrames := []
    handlerCalls := [] }

/-- The head of attemptReconnect in the final client: this.ws is nulled, the
stored subscription id is cleared, the attempt counter is incremented, and the
delay for this attempt is min(reconnectDelay * 2 ^ (attempts - 1), cap).
Returns the computed delay together with the updated client. -/
def attemptReconnectDelay (c : Client) : Nat × Client :=
  let c' := { c with wsOpen := false
                     subscriptionId := none
                     reconnectAttempts := c.reconnectAttempts + 1 }
  (min (c.reconnectDelay * 2 ^ (c'.reconnectAttempts - 1)) MAX_RECONNECT_DELAY, c')

/-- The delays of n consecutive reconnection attempts that all fail before the
socket reopens (so nothing resets the counter or the base delay in between). -/
def failedAttemptDelays (c : Client) : Nat → List Nat
  | 0 => []
  | n + 1 =>
    let p := attemptReconnectDelay c
    p.1 :: failedAttemptDelays p.2 n

/-- The websocket events the final client reacts to. -/
inductive ClientEvent where
  | wsOpen
  | connAck
  | wsClose
  | reconnectAttempt
deriving DecidableEq, Repr

/-- The event handlers installed by connect() in the final client.  The open
handler sends connection_init, starts the heartbeat and resets the attempt
counter and base delay; the connection_ack message marks the client connected;
the close handler marks it disconnected and stops the heartbeat; a reconnect
attempt runs the head of attemptReconnect. -/
def stepEvent : ClientEvent → Client → Client
  | ClientEvent.wsOpen, c =>
      { c with wsOpen := true
               heartbeatOn := true
               reconnectAttempts := 0
               reconnectDelay := INITIAL_RECONNECT_DELAY
               sentFrames := c.sentFrames ++ [Frame.connInit] }
  | ClientEvent.connAck, c => { c with connected := true }
  | ClientEvent.wsClose, c => { c with connected := false, heartbeatOn := false }
  | ClientEvent.reconnectAttempt, c => (attemptReconnectDelay c).2

/-- GraphQLClient.subscribe in the final client: it throws when the client is
not connected; it warns and returns undefined (here: ok with no id and an
unchanged state) when a subscription is already active; otherwise it stores
the handler, assigns the subscription id and sends the start frame. -/
def subscribe (c : Client) (handler : Nat) (resumeId : Option String) :
    Except String (Client × Option String) :=
  if !c.connected then Except.error "Not connected to server"
  else if c.subscriptionId.isSome then Except.ok (c, none)
  else
    let subId := "subscription:client-" ++ c.clientId
    Except.ok
      ({ c with messageHandler := some handler
                subscriptionId := some subId
                sentFrames := c.sentFrames ++ [Frame.start subId resumeId] },
       some subId)

/-- GraphQLClient.sendMessage in the final client: it throws when the client is
not connected, otherwise it performs the HTTP round trip, whose outcome is the
response argument; the client state is untouched either way. -/
def sendMessageClient (c : Client) (user text : String)
    (response : Except String Message) : Except String (Client × Message) :=
  if !c.connected then Except.error "Not connected to server"
  else
    match response with
    | Except.error e => Except.error e
    | Except.ok m => Except.ok (c, m)

/-- GraphQLClient.unsubscribe in the final client: when a subscription is
active and the socket exists it sends the stop frame and clears both the
subscription id and the message handler; otherwise it does nothing. -/
def unsubscribe (c : Client) : Client :=
  match c.subscriptionId, c.wsOpen with
  | some sid, true =>
      { c with sentFrames := c.sentFrames ++ [Frame.stopSub sid]
               subscriptionId := none
               messageHandler := none }
  | _, _ => c

/-- The data branch of the message handler installed by connect() in the final
client: the last message id is tracked when the incoming message carries one,
and the registered handler, if any, is invoked with the message. -/
def onDataFrame (c : Client) (m : Message) : Client :=
  let c1 := if m.id ≠ "" then { c with lastMessageId := some m.id } else c
  match c1.messageHandler with
  | some h => { c1 with handlerCalls := c1.handlerCalls ++ [(h, m)] }
  | none => c1

/-- Processes a whole sequence of incoming data frames. -/
def processDataFrames (c : Client) : List Message → Client
  | [] => c
  | m :: ms => processDataFrames (onDataFrame c m) ms

/-- GraphQLClient.disconnect in the final client.  Auto-reconnection is
disabled and the heartbeat stopped; when a socket exists it is closed and the
client marked disconnected, but the next statement evaluates
this.subscriptions.clear() and the final client class never assigns a
subscriptions field, so the member access yields undefined and the call throws
a TypeError before messageHandler, subscriptionId and ws are cleared.  The
error value carries the state the object is left in. -/
def disconnect (c : Client) : Except (String × Client) Client :=
  let c1 := { c with shouldReconnect := false, heartbeatOn := false }
  if c1.wsOpen then
    let c2 := { c1 with connected := false }
    Except.error ("TypeError: this.subscriptions is undefined", c2)
  else
    Except.ok c1

/-- A connected final client with one active subscription and a registered
handler, as produced by connect() followed by one successful subscribe(). -/
def activeClient : Client :=
  { newClient "7" with
      connected := true
      wsOpen := true
      heartbeatOn := true
      subscriptionId := some "subscription:client-7"
      messageHandler := some 1 }

/-- Dropping to the index found by findIdxOpt is the same as dropping the
longest failing leading segment. -/
theorem findIdxOpt_drop {α : Type} (p : α → Bool) (l : List α) (i : Nat)
    (h : findIdxOpt p l = some i) :
    l.drop i = l.dropWhile (fun a => !(p a)) := by
  induction l generalizing i with
  | nil => simp [findIdxOpt] at h
  | cons a rest ih =>
    by_cases hp : p a
    · simp [findIdxOpt, hp] at h
      subst h
      simp [List.dropWhile_cons, hp]
    · simp [findIdxOpt, hp] at h
      obtain ⟨j, hj, rfl⟩ := h
      simpa [List.dropWhile_cons, hp] using ih j hj

/-- The gated live feed of the resumable generator is exactly what comes
strictly after the first live occurrence of the last backfilled id. -/
theorem liveAfterStitch_eq (lastId : String) (live : List Message) :
    liveAfterStitch lastId live =
      (live.dropWhile (fun m => !(m.id == lastId))).drop 1 := by
  induction live with
  | nil => rfl
  | cons m rest ih =>
    by_cases h : (m.id == lastId) = true
    · simp [liveAfterStitch, h, List.dropWhile_cons]
    · simp [liveAfterStitch, h, List.dropWhile_cons, ih]

/-- C1 counterexample.  In server-with-resume.js the backfill is
storage.messages.slice(startIndex), so the message whose id equals the resume
cursor is itself re-yielded: with a one-message log and the cursor equal to
that message id (and an empty live feed), the subscription yields that message
again instead of the empty backfill that yielding only messages strictly after
the cursor would give. -/
theorem resumeSubscribe_reyields_cursor :
    resumeSubscribe [⟨"a", "hello", "u", 0⟩] (some "a") [] =
      some [⟨"a", "hello", "u", 0⟩] ∧
    (⟨"a", "hello", "u", 0⟩ : Message).id = "a" := by
  exact ⟨by decide, rfl⟩

/-- C1 (amended).  When the resume cursor is found in the log, the stream of
server-with-resume.js yields the suffix of the log starting at the first
message whose id equals the cursor, that message included, and then yields
live messages only strictly after the first live reappearance of the id of
the last backfilled message; if that id never reappears in the live feed, no
live message is ever yielded. -/
theorem resumeSubscribe_found_eq_spec (log : List Message) (c : String)
    (live : List Message) (h : (findMessageIdx log c).isSome = true) :
    resumeSubscribe log (some c) live = some (specResumeFound log c live) := by
  obtain ⟨i, hi⟩ := Option.isSome_iff_exists.mp h
  have hdrop : log.drop i = log.dropWhile (fun m => !(m.id == c)) :=
    findIdxOpt_drop _ _ _ hi
  simp only [resumeSubscribe, specResumeFound, hi, hdrop]
  cases hD : (log.dropWhile (fun m => !(m.id == c))).getLast? with
  | none =>
    have hnil : log.dropWhile (fun m => !(m.id == c)) = [] := by
      rwa [List.getLast?_eq_none_iff] at hD
    simp [hnil]
  | some last =>
    have hne : log.dropWhile (fun m => !(m.id == c)) ≠ [] := by
      intro h0
      rw [h0] at hD
      simp at hD
    have hlen : (log.dropWhile (fun m => !(m.id == c))).length ≠ 0 := by
      simpa [List.length_eq_zero] using hne
    simp [hlen, hD, liveAfterStitch_eq]

/-- C1 witness: a concrete two-message log resumed from the first id, with a
live feed in which the last backfilled id reappears. -/
theorem resumeSubscribe_found_eq_spec_witness :
    (findMessageIdx [⟨"a", "x", "u", 0⟩, ⟨"b", "y", "u", 1⟩] "a").isSome = true ∧
    resumeSubscribe [⟨"a", "x", "u", 0⟩, ⟨"b", "y", "u", 1⟩] (some "a")
        [⟨"c", "z", "u", 2⟩, ⟨"b", "y", "u", 1⟩, ⟨"d", "w", "u", 3⟩] =
      some (specResumeFound [⟨"a", "x", "u", 0⟩, ⟨"b", "y", "u", 1⟩] "a"
        [⟨"c", "z", "u", 2⟩, ⟨"b", "y", "u", 1⟩, ⟨"d", "w", "u", 3⟩]) :=
  ⟨by decide, resumeSubscribe_found_eq_spec _ _ _ (by decide)⟩

/-- C2 counterexample.  The servers take message ids from randomUUID(), which
gives no ordering guarantee: a publish sequence whose UUID supply happens to
produce "b" and then "a" leaves the log with ids that are not strictly
increasing in insertion order (under the string order, the only order the ids
carry). -/
theorem publishAll_ids_not_increasing :
    ¬ List.Chain' (fun a b => a.id < b.id)
        (publishAll [] [⟨"b", "t1", "u", 0⟩, ⟨"a", "t2", "u", 1⟩]) := by
  intro h
  have hlist : publishAll [] [⟨"b", "t1", "u", 0⟩, ⟨"a", "t2", "u", 1⟩] =
      [⟨"b", "t1", "u", 0⟩, ⟨"a", "t2", "u", 1⟩] := rfl
  rw [hlist] at h
  have hba : ("b" : String) < "a" := (List.chain'_cons.mp h).1
  have hnot : ¬ ("b" : String) < "a" := by
    simp [String.lt_iff_toList_lt]
    decide
  exact hnot hba

/-- C2 (amended).  The message log is append-only: a sequence of publishes
appends exactly one message per request at the end of the log, never touching
the existing entries, and each appended message carries verbatim the id the
UUID generator produced for it.  Consequently the ids are strictly increasing
in insertion order exactly when the generator supply (after the ids already
logged) happens to be strictly increasing, which randomUUID does not
guarantee. -/
theorem publishAll_append_only (log : List Message) (rs : List PublishReq) :
    publishAll log rs =
      log ++ rs.map (fun r => (⟨r.freshId, r.text, r.user, r.now⟩ : Message)) ∧
    (publishAll log rs).map Message.id =
      log.map Message.id ++ rs.map PublishReq.freshId ∧
    (List.Chain' (fun a b => a < b) ((publishAll log rs).map Message.id) ↔
      List.Chain' (fun a b => a < b)
        (log.map Message.id ++ rs.map PublishReq.freshId)) := by
  have happ : publishAll log rs =
      log ++ rs.map (fun r => (⟨r.freshId, r.text, r.user, r.now⟩ : Message)) := by
    induction rs generalizing log with
    | nil => simp [publishAll]
    | cons r rs ih => simp [publishAll, sendMessageResolver, ih]
  have hids : (publishAll log rs).map Message.id =
      log.map Message.id ++ rs.map PublishReq.freshId := by
    rw [happ]
    simp [List.map_map, Function.comp]
  exact ⟨happ, hids, by rw [hids]⟩

/-- C3 counterexample.  In server-with-resume.js a subscribe whose cursor is
not the id of any logged message returns undefined instead of an async
iterator: with an empty log and cursor "x" the resolver produces no stream at
all, so a message published afterwards is not delivered, whereas the very same
subscribe without a cursor would deliver it. -/
theorem resumeSubscribe_unknown_cursor_no_stream :
    resumeSubscribe [] (some "x") [⟨"b", "t", "u", 1⟩] = none ∧
    resumeSubscribe [] none [⟨"b", "t", "u", 1⟩] = some [⟨"b", "t", "u", 1⟩] := by
  exact ⟨rfl, rfl⟩

/-- C3 (amended).  In the unstable server the fallback does hold: the live
listener of Pubsub.subscribe is installed before the cursor is looked up, so
when the cursor is not found nothing is backfilled and the subscription queue
carries exactly the live feed, identical to a subscription that never gave a
cursor. -/
theorem pubsubSubscribe_unknown_cursor_live_only (log : List Message)
    (c : String) (live : List Message) (h : findMessageIdx log c = none) :
    pubsubSubscribeQueue log (some c) live = live ∧
    pubsubSubscribeQueue log (some c) live =
      pubsubSubscribeQueue log none live := by
  simp [pubsubSubscribeQueue, h]

/-- C3 witness: a one-message log and a cursor that is not in it. -/
theorem pubsubSubscribe_unknown_cursor_live_only_witness :
    findMessageIdx [⟨"a", "x", "u", 0⟩] "z" = none ∧
    pubsubSubscribeQueue [⟨"a", "x", "u", 0⟩] (some "z") [⟨"b", "t", "u", 1⟩] =
      [⟨"b", "t", "u", 1⟩] :=
  ⟨by decide,
   (pubsubSubscribe_unknown_cursor_live_only _ _ _ (by decide)).1⟩

/-- Closed form for the delay of the (k+1)-st of a run of consecutive failed
reconnection attempts: the base delay is never touched inside the run and the
exponent follows the attempt counter. -/
theorem failedAttemptDelays_get (c : Client) (n k : Nat) (hk : k < n) :
    (failedAttemptDelays c n).get? k =
      some (min (c.reconnectDelay * 2 ^ (c.reconnectAttempts + k))
        MAX_RECONNECT_DELAY) := by
  induction n generalizing c k with
  | zero => omega
  | succ n ih =>
    cases k with
    | zero => simp [failedAttemptDelays, attemptReconnectDelay]
    | succ k =>
      have hk2 : k < n := by omega
      have := ih { c with wsOpen := false
                          subscriptionId := none
                          reconnectAttempts := c.reconnectAttempts + 1 } k hk2
      simp only [failedAttemptDelays, attemptReconnectDelay, List.get?_cons_succ]
      rw [this]
      have harith : c.reconnectAttempts + 1 + k = c.reconnectAttempts + (k + 1) := by
        omega
      simp [harith]

/-- C4.  The delay before reconnect attempt k of the final client is
min(initialDelay * 2 ^ (k - 1), maxDelay) with maxDelay 30000 ms; the delay
sequence is non-decreasing in k; and the attempt counter is set back to 0 by
no event other than the open event of a successfully re-established socket
(the handler that also restores the base delay and restarts the heartbeat). -/
theorem reconnect_backoff_formula :
    (∀ c : Client, c.reconnectAttempts = 0 →
      c.reconnectDelay = INITIAL_RECONNECT_DELAY →
      ∀ k, 1 ≤ k → k ≤ MAX_RECONNECT_ATTEMPTS →
        (failedAttemptDelays c MAX_RECONNECT_ATTEMPTS).get? (k - 1) =
          some (min (INITIAL_RECONNECT_DELAY * 2 ^ (k - 1))
            MAX_RECONNECT_DELAY)) ∧
    (∀ k : Nat, 1 ≤ k →
      min (INITIAL_RECONNECT_DELAY * 2 ^ (k - 1)) MAX_RECONNECT_DELAY ≤
        min (INITIAL_RECONNECT_DELAY * 2 ^ k) MAX_RECONNECT_DELAY) ∧
    (∀ (c : Client) (e : ClientEvent),
      (stepEvent e c).reconnectAttempts = 0 →
        c.reconnectAttempts = 0 ∨ e = ClientEvent.wsOpen) := by
  refine ⟨?_, ?_, ?_⟩
  · intro c h0 hd k hk1 hk5
    have hk : k - 1 < MAX_RECONNECT_ATTEMPTS := by
      simp only [MAX_RECONNECT_ATTEMPTS] at hk5 ⊢
      omega
    rw [failedAttemptDelays_get c MAX_RECONNECT_ATTEMPTS (k - 1) hk, h0, hd]
    simp
  · intro k _
    exact min_le_min
      (Nat.mul_le_mul_left _ (Nat.pow_le_pow_right (by norm_num) (by omega)))
      (le_refl _)
  · intro c e h
    cases e with
    | wsOpen => exact Or.inr rfl
    | connAck => exact Or.inl (by simpa [stepEvent] using h)
    | wsClose => exact Or.inl (by simpa [stepEvent] using h)
    | reconnectAttempt =>
      exact absurd h (by simp [stepEvent, attemptReconnectDelay])

/-- C4 witness: the fifth attempt of a freshly constructed client waits
min(2000 * 2 ^ 4, 30000) = 30000 ms, the formula is non-decreasing between the
first two attempts, and a close event leaves the zero attempt counter of a
fresh client untouched. -/
theorem reconnect_backoff_formula_witness :
    (failedAttemptDelays (newClient "w4") MAX_RECONNECT_ATTEMPTS).get? 4 =
      some (min (INITIAL_RECONNECT_DELAY * 2 ^ 4) MAX_RECONNECT_DELAY) ∧
    min (INITIAL_RECONNECT_DELAY * 2 ^ 0) MAX_RECONNECT_DELAY ≤
      min (INITIAL_RECONNECT_DELAY * 2 ^ 1) MAX_RECONNECT_DELAY ∧
    ((newClient "w4").reconnectAttempts = 0 ∨
      ClientEvent.wsClose = ClientEvent.wsOpen) :=
  ⟨reconnect_backoff_formula.1 (newClient "w4") rfl rfl 5 (by decide) (by decide),
   reconnect_backoff_formula.2.1 1 (by decide),
   reconnect_backoff_formula.2.2 (newClient "w4") ClientEvent.wsClose (by decide)⟩

/-- C5.  A second subscribe() on a connected client that already holds an
active subscription is a no-op: the call returns without an id and with the
client state unchanged, so no start frame is written, the stored subscription
id and message handler stay what they were, and message delivery through the
original handler is unaffected. -/
theorem subscribe_second_noop (c : Client) (handler : Nat)
    (resumeId : Option String) (hconn : c.connected = true)
    (hsub : c.subscriptionId.isSome = true) :
    subscribe c handler resumeId = Except.ok (c, none) := by
  simp [subscribe, hconn, hsub]

/-- C5 witness: a connected client with an active subscription. -/
theorem subscribe_second_noop_witness :
    activeClient.connected = true ∧
    activeClient.subscriptionId.isSome = true ∧
    subscribe activeClient 2 none = Except.ok (activeClient, none) :=
  ⟨rfl, rfl, subscribe_second_noop activeClient 2 none rfl rfl⟩

/-- When no handler is registered, processing any run of data frames never
invokes a handler (and registers none). -/
theorem processDataFrames_no_handler (c : Client) (ms : List Message)
    (h : c.messageHandler = none) :
    (processDataFrames c ms).handlerCalls = c.handlerCalls := by
  induction ms generalizing c with
  | nil => rfl
  | cons m ms ih =>
    have hstep : onDataFrame c m =
        if m.id ≠ "" then { c with lastMessageId := some m.id } else c := by
      unfold onDataFrame
      split <;> simp [h]
    have hnone : (onDataFrame c m).messageHandler = none := by
      rw [hstep]
      split <;> simp [h]
    have hcalls : (onDataFrame c m).handlerCalls = c.handlerCalls := by
      rw [hstep]
      split <;> rfl
    simpa [processDataFrames, hcalls] using ih (onDataFrame c m) hnone

/-- C8.  After unsubscribe() on the active subscription, the handler that the
earlier subscribe() registered is never invoked again: however many data
frames arrive afterwards, the list of handler invocations does not grow,
because unsubscribe clears the registered handler and the dispatch branch
only calls a registered handler. -/
theorem unsubscribe_stops_handler (c : Client) (ms : List Message)
    (hsub : c.subscriptionId.isSome = true) (hws : c.wsOpen = true) :
    (processDataFrames (unsubscribe c) ms).handlerCalls = c.handlerCalls := by
  obtain ⟨sid, hsid⟩ := Option.isSome_iff_exists.mp hsub
  have hu : unsubscribe c =
      { c with sentFrames := c.sentFrames ++ [Frame.stopSub sid]
               subscriptionId := none
               messageHandler := none } := by
    simp [unsubscribe, hsid, hws]
  rw [processDataFrames_no_handler _ _ (by rw [hu]), hu]

/-- C8 witness: a concrete data frame arriving after the unsubscribe. -/
theorem unsubscribe_stops_handler_witness :
    activeClient.subscriptionId.isSome = true ∧
    activeClient.wsOpen = true ∧
    (processDataFrames (unsubscribe activeClient)
        [⟨"m1", "t", "u", 5⟩]).handlerCalls = activeClient.handlerCalls :=
  ⟨rfl, rfl, unsubscribe_stops_handler activeClient [⟨"m1", "t", "u", 5⟩] rfl rfl⟩

/-- The state the final client is left in when disconnect() throws: reconnect
disabled, heartbeat stopped, transport closed, but the subscription id, the
message handler and the socket reference all still set. -/
def brokenDisconnectState : Client :=
  { activeClient with
      shouldReconnect := false
      heartbeatOn := false
      connected := false }

/-- C9.  disconnect() on a connected client does disable auto-reconnection,
stop the heartbeat and close the transport, but it does not return normally:
the final client class never assigns a subscriptions field, so the
this.subscriptions.clear() statement inside disconnect() throws a TypeError,
and the subscription id, message handler and socket reference are left
uncleared. -/
theorem disconnect_throws_typeerror :
    disconnect activeClient =
      Except.error ("TypeError: this.subscriptions is undefined",
        brokenDisconnectState) ∧
    brokenDisconnectState.shouldReconnect = false ∧
    brokenDisconnectState.heartbeatOn = false ∧
    brokenDisconnectState.connected = false ∧
    brokenDisconnectState.messageHandler = some 1 ∧
    brokenDisconnectState.subscriptionId = some "subscription:client-7" ∧
    brokenDisconnectState.wsOpen = true := by
  exact ⟨rfl, rfl, rfl, rfl, rfl, rfl, rfl⟩

/-- C10.  On a client that is not connected, both subscribe() and
sendMessage() throw the Not connected to server error as their very first
statement: no frame is written, no handler is registered, no subscription id
is assigned and the client state is untouched. -/
theorem not_connected_guard (c : Client) (handler : Nat)
    (resumeId : Option String) (user text : String)
    (response : Except String Message) (h : c.connected = false) :
    subscribe c handler resumeId = Except.error "Not connected to server" ∧
    sendMessageClient c user text response =
      Except.error "Not connected to server" := by
  simp [subscribe, sendMessageClient, h]

/-- C10 witness: a freshly constructed client has connected = false and both
calls throw. -/
theorem not_connected_guard_witness :
    (newClient "9").connected = false ∧
    subscribe (newClient "9") 1 none = Except.error "Not connected to server" ∧
    sendMessageClient (newClient "9") "u" "t" (Except.error "x") =
      Except.error "Not connected to server" :=
  ⟨rfl,
   (not_connected_guard (newClient "9") 1 none "u" "t" (Except.error "x") rfl).1,
   (not_connected_guard (newClient "9") 1 none "u" "t" (Except.error "x") rfl).2⟩

/-- C6.  Processing a pong at time T advances the lastPong checkpoint to T and
prunes the backup buffer so that no entry with enqueue timestamp at or before
T remains, whatever the buffer contents and T. -/
theorem onPong_prunes_buffer (s : ProxyState) (now : Nat) :
    (onPong s now).lastPong = now ∧
    ∀ e ∈ (onPong s now).backup, ¬ e.timestamp ≤ now := by
  refine ⟨rfl, ?_⟩
  intro e he
  simp only [onPong, List.mem_filter, decide_eq_true_eq] at he
  omega

/-- C6 witness: a pong at time 5 prunes the entry stamped 3 and keeps the
entry stamped 9, which is indeed later than 5. -/
theorem onPong_prunes_buffer_witness :
    (onPong ⟨[⟨"f1", 3⟩, ⟨"f2", 9⟩], 0⟩ 5).lastPong = 5 ∧
    ¬ (⟨"f2", 9⟩ : BackupEntry).timestamp ≤ 5 :=
  ⟨(onPong_prunes_buffer ⟨[⟨"f1", 3⟩, ⟨"f2", 9⟩], 0⟩ 5).1,
   (onPong_prunes_buffer ⟨[⟨"f1", 3⟩, ⟨"f2", 9⟩], 0⟩ 5).2 ⟨"f2", 9⟩ (by decide)⟩

/-- C7.  On an upstream reconnect at time now, the proxy resends exactly the
buffered frames whose timestamp is strictly after the lastPong checkpoint and
at most now: the selection is a sublist of the buffer (so frames go out in
buffer order), an entry is selected precisely when it lies in that window,
entries at or before the checkpoint are never resent, and the resend loop
emits every selected frame followed by the fixed 250 ms pacing wait. -/
theorem resendMessages_window (backup : List BackupEntry) (lastPong now : Nat) :
    List.Sublist (messagesToResend backup lastPong now) backup ∧
    (∀ e, e ∈ messagesToResend backup lastPong now ↔
      e ∈ backup ∧ lastPong < e.timestamp ∧ e.timestamp ≤ now) ∧
    (∀ e ∈ backup, e.timestamp ≤ lastPong →
      e ∉ messagesToResend backup lastPong now) ∧
    resendActions backup lastPong now =
      (messagesToResend backup lastPong now).flatMap
        (fun m => [ProxySend.sendFrame m.message, ProxySend.waitMs RESEND_WAIT]) := by
  refine ⟨List.filter_sublist _, ?_, ?_, ?_⟩
  · intro e
    simp [messagesToResend, List.mem_filter, and_assoc]
  · intro e _ hle hmem
    simp [messagesToResend, List.mem_filter] at hmem
    omega
  · show (messagesToResend backup lastPong now).foldr _ [] = _
    induction messagesToResend backup lastPong now with
    | nil => rfl
    | cons a l ih => simp [List.foldr_cons, List.flatMap_cons, ih]

/-- C7 witness: with checkpoint 5 and reconnect time 12, the buffer entries
stamped 3 (too old), 9 (in the window) and 15 (after now) give exactly one
resent frame, and the too-old entry is not resent. -/
theorem resendMessages_window_witness :
    messagesToResend [⟨"f1", 3⟩, ⟨"f2", 9⟩, ⟨"f3", 15⟩] 5 12 = [⟨"f2", 9⟩] ∧
    (⟨"f1", 3⟩ : BackupEntry) ∉
      messagesToResend [⟨"f1", 3⟩, ⟨"f2", 9⟩, ⟨"f3", 15⟩] 5 12 :=
  ⟨by decide,
   (resendMessages_window [⟨"f1", 3⟩, ⟨"f2", 9⟩, ⟨"f3", 15⟩] 5 12).2.2.1
     ⟨"f1", 3⟩ (by decide) (by decide)⟩

end ChatDemo
